import Mathlib

/-!
Verification development for the `byd_vehicle` Home Assistant integration
(repository `jkaberg/hass-byd`).

The definitions below are a shallow embedding of the polling-and-cache
coordination subsystem:

* `custom_components/byd_vehicle/value_guard.py` — GPS null-island guard;
* `custom_components/byd_vehicle/coordinator.py` — telemetry and GPS update
  coordinators (fetch cycles, HVAC gating, optimistic HVAC guard, optimistic
  HVAC patching);
* `custom_components/byd_vehicle/freshness.py` — material snapshot and digest;
* `custom_components/byd_vehicle/entity.py` — shared command dispatch;
* `custom_components/byd_vehicle/switch.py` — the car-on switch state read.

Conventions of the embedding:

* Python `None`-able values become `Option`; Python `a or b` on such values
  becomes `pyOr`.
* Monotonic clock readings become `ℚ` (the code only compares and adds them).
* Each coordinator manages a single VIN, so the per-VIN maps
  (`{"realtime": {vin: ...}}` and friends) are embedded as the `Option`al
  entry for that one VIN.
* A remote fetch is embedded by its observable outcome (`FetchResult`):
  a value, a recoverable-class error (`BydApiError`, `BydTransportError`,
  `BydRateLimitError`, `BydEndpointNotSupportedError`), or an
  authentication-class error (`BydAuthenticationError`,
  `BydSessionExpiredError`).
* Raising is embedded as an outcome constructor (`authFailed`,
  `updateFailed`, `Except.error`).
-/

/-- Python `a or b` for two `Option`s (the left operand is preferred when it
is not `None`). -/
def pyOr {α : Type} : Option α → Option α → Option α
  | some a, _ => some a
  | none, b => b

/-- Outcome of one remote fetch call, as classified by the error tuples
`_AUTH_ERRORS` and `_RECOVERABLE_ERRORS` in `coordinator.py`. -/
inductive FetchResult (α : Type) where
  | ok (a : α)
  | recoverable
  | authError
deriving DecidableEq, Repr

/-- Value returned by a successful fetch, `none` otherwise. -/
def FetchResult.toOption {α : Type} : FetchResult α → Option α
  | .ok a => some a
  | _ => none

/-! ## GPS fixes and the null-island value guard (`value_guard.py`) -/

/-- Embedding of `pybyd.models.gps.GpsInfo` restricted to the fields read by
the integration code under scrutiny: the two nullable coordinates. -/
structure GpsInfo where
  latitude : Option ℚ
  longitude : Option ℚ
deriving DecidableEq, Repr

/-- Embedding of `_GPS_NULL_ISLAND_THRESHOLD = 0.1`. -/
def gpsNullIslandThreshold : ℚ := 1 / 10

/-- Embedding of `value_guard.guard_gps_coordinates` (value_guard.py lines
22-46), mirroring the control flow of the source exactly: prefer `incoming`;
fall back to `previous` when `incoming` is `None`-coordinated on both axes or
is near (0, 0); on first startup (`previous` is `None`) return `incoming`. -/
def guard_gps_coordinates (previous incoming : Option GpsInfo) : Option GpsInfo :=
  match incoming with
  | none => previous
  | some inc =>
    match previous with
    | none => some inc
    | some _ =>
      match inc.latitude, inc.longitude with
      | none, none => previous
      | some lat, some lon =>
        if |lat| < gpsNullIslandThreshold ∧ |lon| < gpsNullIslandThreshold then
          previous
        else
          some inc
      | _, _ => some inc

/-! ## GPS update coordinator (`BydGpsUpdateCoordinator`, coordinator.py) -/

/-- The GPS coordinator data dictionary for the single VIN: the `"gps"` map
entry (the `"vehicles"` entry is always present and carries no state we need
to track). -/
structure GpsData where
  gps : Option GpsInfo
deriving DecidableEq, Repr

/-- Mutable state of `BydGpsUpdateCoordinator` relevant to one refresh:
`self.data` (set by the framework after a successful cycle),
`self._polling_enabled` and `self._force_next_refresh`. -/
structure GpsCycleState where
  data : Option GpsData
  pollingEnabled : Bool
  forceNext : Bool
deriving DecidableEq, Repr

/-- Outcome of `BydGpsUpdateCoordinator._async_update_data`: an
authentication-class error propagates, `UpdateFailed` is raised, or the cycle
returns a data dictionary (the successor state records the cleared
`_force_next_refresh` flag and, on success, the framework writing the returned
dictionary back to `self.data`). -/
inductive GpsOutcome where
  | authFailed
  | updateFailed (st : GpsCycleState)
  | ok (d : GpsData) (st : GpsCycleState)
deriving DecidableEq, Repr

/-- Embedding of `BydGpsUpdateCoordinator._async_update_data` (coordinator.py
lines 812-863).  The fetch call is represented by its outcome `fetch`.  When
polling is disabled and no force is pending, the cached data (or a
vehicles-only placeholder, embedded as `GpsData` with an empty gps map) is
returned unchanged.  Otherwise the fetch result is consulted: an
authentication error propagates; when no fix was obtained the code raises
`UpdateFailed` unconditionally — it never falls back to previously cached
location data. -/
def gpsUpdateData (st : GpsCycleState) (fetch : FetchResult GpsInfo) : GpsOutcome :=
  let force := st.forceNext
  let st1 : GpsCycleState := { st with forceNext := false }
  if st.pollingEnabled = false ∧ force = false then
    match st.data with
    | some d => .ok d st1
    | none => .ok { gps := none } st1
  else
    match fetch with
    | .authError => .authFailed
    | .recoverable => .updateFailed st1
    | .ok g =>
      let d : GpsData := { gps := some g }
      .ok d { st1 with data := some d }

/-! ## Telemetry coordinator (`BydDataUpdateCoordinator`, coordinator.py) -/

/-- Embedding of `pybyd.models.realtime.VehicleRealtimeData` restricted to
what the integration reads: the derived power state, plus an uninterpreted payload
tag distinguishing distinct observations. -/
structure RealtimeData where
  isVehicleOn : Bool
  payload : ℕ
deriving DecidableEq, Repr

/-- Seat heat/ventilation level (`pybyd.models.realtime.SeatHeatVentState`):
the integration compares against `OFF` and `UNAVAILABLE` and writes `OFF`. -/
inductive SeatHeatVentState where
  | off
  | unavailable
  | level (n : ℕ)
deriving DecidableEq, Repr

/-- Steering wheel heat (`pybyd.models.realtime.StearingWheelHeat`): the
integration compares against `OFF` and writes `OFF`. -/
inductive SteeringWheelHeat where
  | off
  | on
deriving DecidableEq, Repr

/-- Embedding of `pybyd.models.hvac.HvacStatus` restricted to the fields the
integration reads or patches.  `status` is the overall A/C state
(`HvacOverallStatus.ON` is `true`); the external `is_ac_on` property reflects
it (see `HvacStatus.is_ac_on`).  The eight seat fields of
`_SEAT_HVAC_FIELDS` are kept as a list in tuple order. -/
structure HvacStatus where
  status : Bool
  mainSettingTempNew : Option ℚ
  seatFields : List SeatHeatVentState
  steeringWheelHeatState : SteeringWheelHeat
  payload : ℕ
deriving DecidableEq, Repr

/-- External `HvacStatus.is_ac_on` property of the pybyd model: whether the
overall status is `ON`. -/
def HvacStatus.is_ac_on (h : HvacStatus) : Bool := h.status

/-- The telemetry coordinator data dictionary for the single VIN: the
`"realtime"` and `"hvac"` map entries (the `"vehicles"` entry is always
present and carries no state we track). -/
structure TelemetryData where
  realtime : Option RealtimeData
  hvac : Option HvacStatus
deriving DecidableEq, Repr

/-- Mutable state of `BydDataUpdateCoordinator` touched by the embedded
operations: `self.data` (written by the framework and by
`apply_optimistic_hvac`), the conditional-fetch caches `self._last_realtime`
and `self._last_hvac`, and the optimistic HVAC guard fields
`self._optimistic_hvac_until` and `self._optimistic_ac_expected`. -/
structure TelemetryState where
  data : Option TelemetryData
  lastRealtime : Option RealtimeData
  lastHvac : Option HvacStatus
  guardUntil : Option ℚ
  guardExpected : Option Bool
deriving DecidableEq, Repr

/-- Embedding of the static `BydDataUpdateCoordinator._is_vehicle_on`
(coordinator.py lines 410-414): `None` for no data, else the power state. -/
def isVehicleOnOpt : Option RealtimeData → Option Bool
  | none => none
  | some r => some r.isVehicleOn

/-- Embedding of `BydDataUpdateCoordinator._should_fetch_hvac`
(coordinator.py lines 421-431). -/
def shouldFetchHvac (lastHvac : Option HvacStatus) (realtime : Option RealtimeData)
    (force : Bool) : Bool :=
  if lastHvac = none then true
  else if force then true
  else isVehicleOnOpt realtime = some true

/-- Embedding of `_OPTIMISTIC_HVAC_GUARD_TTL_S = 60.0`. -/
def optimisticHvacGuardTtl : ℚ := 60

/-- Embedding of `BydDataUpdateCoordinator._accept_hvac_update`
(coordinator.py lines 433-468).  Returns whether the fetched HVAC value is
accepted, together with the successor state (only the two guard fields can
change).  The guard accepts and clears when the monotonic clock has reached
`_optimistic_hvac_until` or when `hvac.is_ac_on` equals
`_optimistic_ac_expected`; otherwise it rejects and leaves the state
untouched. -/
def acceptHvacUpdate (st : TelemetryState) (now : ℚ) (hvac : HvacStatus) :
    Bool × TelemetryState :=
  match st.guardUntil with
  | none => (true, st)
  | some t =>
    if t ≤ now then
      (true, { st with guardUntil := none, guardExpected := none })
    else if st.guardExpected = some hvac.is_ac_on then
      (true, { st with guardUntil := none, guardExpected := none })
    else
      (false, st)

/-- Per-cycle endpoint failure record: presence of the `"realtime"` and
`"hvac"` keys of the `endpoint_failures` dictionary, plus whether the HVAC
fetch round-trip was issued at all (observable as the network call). -/
structure TelemetryFetchInfo where
  realtimeFailed : Bool
  hvacFailed : Bool
  hvacRequested : Bool
deriving DecidableEq, Repr

/-- Outcome of the `_fetch` closure of
`BydDataUpdateCoordinator._async_update_data`: an authentication-class error
propagates, `UpdateFailed` is raised (after the local caches were already
updated), or a data dictionary is returned.  On success the successor state
also records the framework writing the returned dictionary to `self.data`. -/
inductive TelemetryOutcome where
  | authFailed
  | updateFailed (st : TelemetryState)
  | ok (d : TelemetryData) (info : TelemetryFetchInfo) (st : TelemetryState)
deriving DecidableEq, Repr

/-- Tail of the telemetry `_fetch` closure (coordinator.py lines 523-574):
update `self._last_realtime` / `self._last_hvac` from the fetched values,
build the result maps with last-known fallback (HVAC fallback gated on the
vehicle being on), and raise `UpdateFailed` when no realtime value is
available from either source. -/
def telemetryFinish (st : TelemetryState) (realtime : Option RealtimeData)
    (rtFailed : Bool) (hvac : Option HvacStatus) (hvacFailed hvacRequested : Bool) :
    TelemetryOutcome :=
  let lastRealtime1 := match realtime with
    | some r => some r
    | none => st.lastRealtime
  let lastHvac1 := match hvac with
    | some h => some h
    | none => st.lastHvac
  let st1 : TelemetryState := { st with lastRealtime := lastRealtime1, lastHvac := lastHvac1 }
  let effectiveRealtime := pyOr realtime st1.lastRealtime
  let vehicleOn := isVehicleOnOpt (pyOr realtime st1.lastRealtime)
  let effectiveHvac := pyOr hvac (if vehicleOn = some true then st1.lastHvac else none)
  match effectiveRealtime with
  | none => .updateFailed st1
  | some er =>
    let d : TelemetryData := { realtime := some er, hvac := effectiveHvac }
    .ok d
      { realtimeFailed := rtFailed, hvacFailed := hvacFailed, hvacRequested := hvacRequested }
      { st1 with data := some d }

/-- Middle of the telemetry `_fetch` closure (coordinator.py lines 497-521):
with the realtime fetch outcome in hand, compute the gating value
(fresh-or-cached), decide whether to fetch HVAC, and run the fetched value
through the optimistic guard. -/
def telemetryAfterRealtime (st : TelemetryState) (now : ℚ) (force : Bool)
    (realtime : Option RealtimeData) (rtFailed : Bool)
    (hvacRes : FetchResult HvacStatus) : TelemetryOutcome :=
  let realtimeGate := pyOr realtime st.lastRealtime
  if shouldFetchHvac st.lastHvac realtimeGate force then
    match hvacRes with
    | .authError => .authFailed
    | .recoverable => telemetryFinish st realtime rtFailed none true true
    | .ok h =>
      match acceptHvacUpdate st now h with
      | (true, st1) => telemetryFinish st1 realtime rtFailed (some h) false true
      | (false, st1) => telemetryFinish st1 realtime rtFailed none false true
  else
    telemetryFinish st realtime rtFailed none false false

/-- Embedding of the `_fetch` closure of
`BydDataUpdateCoordinator._async_update_data` (coordinator.py lines 481-574),
with the two network calls represented by their outcomes.  The enclosing
method only adds the skip-when-disabled branch (which returns the cached data
unchanged) and the force-flag bookkeeping; every claim below concerns a cycle
that reaches this fetch phase. -/
def telemetryFetch (st : TelemetryState) (now : ℚ) (force : Bool)
    (rtRes : FetchResult RealtimeData) (hvacRes : FetchResult HvacStatus) :
    TelemetryOutcome :=
  match rtRes with
  | .authError => .authFailed
  | .recoverable => telemetryAfterRealtime st now force none true hvacRes
  | .ok r => telemetryAfterRealtime st now force (some r) false hvacRes

/-- Embedding of `BydDataUpdateCoordinator.apply_optimistic_hvac`
(coordinator.py lines 657-733).  Mirrors the source: bail out when
`self.data` is not a dictionary or holds no HVAC entry for the VIN; collect
the updates dictionary (overall status, target temperature, seat and steering
wheel resets restricted to fields that are actually active); bail out when no
updates were collected; otherwise patch the cached HVAC value, publish it,
and, when `ac_on` was given, arm the optimistic guard for
`_OPTIMISTIC_HVAC_GUARD_TTL_S` seconds. -/
def applyOptimisticHvac (st : TelemetryState) (now : ℚ) (acOn : Option Bool)
    (targetTemp : Option ℚ) (resetSeats : Bool) : TelemetryState :=
  match st.data with
  | none => st
  | some d =>
    match d.hvac with
    | none => st
    | some cur =>
      let seatUpdates :=
        resetSeats ∧ cur.seatFields.any fun v =>
          v ≠ SeatHeatVentState.off ∧ v ≠ SeatHeatVentState.unavailable
      let swUpdate := resetSeats ∧ cur.steeringWheelHeatState ≠ SteeringWheelHeat.off
      if acOn = none ∧ targetTemp = none ∧ ¬seatUpdates ∧ ¬swUpdate then
        st
      else
        let patched : HvacStatus :=
          { cur with
            status := match acOn with
              | some b => b
              | none => cur.status
            mainSettingTempNew := match targetTemp with
              | some t => some t
              | none => cur.mainSettingTempNew
            seatFields :=
              if resetSeats then
                cur.seatFields.map fun v =>
                  if v ≠ SeatHeatVentState.off ∧ v ≠ SeatHeatVentState.unavailable then
                    SeatHeatVentState.off
                  else v
              else cur.seatFields
            steeringWheelHeatState :=
              if resetSeats ∧ cur.steeringWheelHeatState ≠ SteeringWheelHeat.off then
                SteeringWheelHeat.off
              else cur.steeringWheelHeatState }
        { st with
          data := some { d with hvac := some patched }
          lastHvac := some patched
          guardUntil := match acOn with
            | some _ => some (now + optimisticHvacGuardTtl)
            | none => st.guardUntil
          guardExpected := match acOn with
            | some b => some b
            | none => st.guardExpected }

/-! ## Command dispatch (`BydVehicleEntity._execute_command`, entity.py) -/

/-- Outcome of the remote call made through `api.async_call` inside
`_execute_command`: success, a `BydRemoteControlError` (vehicle accepted the
request but the cloud reports an asynchronous failure), or any other
exception carrying its message. -/
inductive CommandCallResult where
  | ok
  | remoteControlSoftFailure (msg : String)
  | otherError (msg : String)
deriving DecidableEq, Repr

/-- Per-entity optimistic command memory: `self._command_pending` and
`self._commanded_at` from `BydVehicleEntity`. -/
structure EntityCmdState where
  commandPending : Bool
  commandedAt : Option ℚ
deriving DecidableEq, Repr

/-- Result of `BydVehicleEntity._execute_command` (entity.py lines 97-131):
the successor command memory, whether `on_rollback` was invoked, and the
message of the raised `HomeAssistantError`, if any. -/
structure CommandOutcome where
  st : EntityCmdState
  rolledBack : Bool
  raisedError : Option String
deriving DecidableEq, Repr

/-- Embedding of `BydVehicleEntity._execute_command` (entity.py lines
97-131).  `hasRollback` records whether the caller supplied `on_rollback`.
A `BydRemoteControlError` is swallowed (warning logged) and the dispatch
continues as a success; any other exception first invokes the rollback (when
provided) and then re-raises as `HomeAssistantError(str(exc))`, leaving the
command memory untouched.  On success or soft failure the pending flag is set
and the command time recorded. -/
def executeCommand (st : EntityCmdState) (callRes : CommandCallResult)
    (hasRollback : Bool) (now : ℚ) : CommandOutcome :=
  match callRes with
  | .ok =>
    { st := { commandPending := true, commandedAt := some now }
      rolledBack := false
      raisedError := none }
  | .remoteControlSoftFailure _ =>
    { st := { commandPending := true, commandedAt := some now }
      rolledBack := false
      raisedError := none }
  | .otherError msg =>
    { st := st
      rolledBack := hasRollback
      raisedError := some msg }

/-! ## Car-on switch state read (`BydCarOnSwitch.is_on`, switch.py) -/

/-- First-match association-list lookup (the Python attribute/dictionary
lookup used in the embeddings below). -/
def lookupKey {β : Type} (k : String) : List (String × β) → Option β
  | [] => none
  | (k1, v) :: rest => if k1 = k then some v else lookupKey k rest

/-- Attribute names defined on `BydDataUpdateCoordinator` instances:
everything assigned in `__init__` (coordinator.py lines 373-399), every
method and property of the class body, and the attributes inherited from the
Home Assistant `DataUpdateCoordinator` base class that the integration
touches.  No attribute named `hvac_command_pending` is ever defined. -/
def telemetryCoordinatorAttrNames : List String :=
  [ "_api", "_vehicle", "_vin", "_fixed_interval", "_polling_enabled",
    "_force_next_refresh", "_last_realtime", "_last_hvac",
    "_optimistic_hvac_until", "_optimistic_ac_expected",
    "handle_mqtt_realtime", "_is_vehicle_on", "is_vehicle_on",
    "_should_fetch_hvac", "_accept_hvac_update", "_async_update_data",
    "polling_enabled", "set_polling_enabled", "async_force_refresh",
    "async_fetch_realtime", "async_fetch_hvac", "async_fetch_hvac_delayed",
    "async_fetch_realtime_delayed", "apply_optimistic_hvac",
    "data", "hass", "name", "update_interval", "last_update_success",
    "async_set_updated_data", "async_request_refresh", "async_refresh",
    "async_config_entry_first_refresh", "async_add_listener", "logger" ]

/-- Python `getattr`-style read of a boolean attribute from a live object
whose dynamic attributes are given as an association list: a missing name
raises `AttributeError`. -/
def getattrBool (attrs : List (String × Bool)) (name : String) : Except String Bool :=
  match lookupKey name attrs with
  | some b => .ok b
  | none => .error ("AttributeError: " ++ name)

/-- Embedding of `BydVehicleEntity._is_vehicle_on` (entity.py lines 86-91):
`False` when no realtime data, else the reported power state. -/
def entityIsVehicleOn : Option RealtimeData → Bool
  | none => false
  | some r => r.isVehicleOn

/-- Embedding of the `BydCarOnSwitch.is_on` property (switch.py lines
162-179).  `coordAttrs` is the dynamic boolean-attribute table of the
coordinator object, read when the source evaluates
`self.coordinator.hvac_command_pending`; Python short-circuits the
conjunction, so the attribute is only read when the vehicle is off. -/
def carOnIsOn (coordAttrs : List (String × Bool)) (commandPending : Bool)
    (lastState : Option Bool) (hvac : Option HvacStatus)
    (realtime : Option RealtimeData) : Except String (Option Bool) :=
  if commandPending then .ok lastState
  else
    match hvac with
    | some h =>
      if h.is_ac_on = false then .ok (some false)
      else if entityIsVehicleOn realtime = false then
        match getattrBool coordAttrs "hvac_command_pending" with
        | .error e => .error e
        | .ok pending =>
          if pending = false then .ok (some false) else .ok (some true)
      else .ok (some true)
    | none =>
      if entityIsVehicleOn realtime = false then .ok (some false)
      else .ok lastState

/-! ## Materiality reducer (`freshness.py`)

The snapshot values are the normalized scalars produced by
`_json_safe_value`: on the scalar payloads appearing in material fields
(numbers, strings, booleans) that normalization is the identity, so the
embedding stores scalars directly. -/

/-- Normalized scalar value of a material snapshot. -/
inductive MVal where
  | int (n : ℤ)
  | rat (q : ℚ)
  | str (s : String)
  | bool (b : Bool)
deriving DecidableEq, Repr

/-- One per-resource section of the material snapshot: a field-name keyed
dictionary, embedded as an association list in insertion order. -/
def MaterialSection : Type := List (String × MVal)

instance : DecidableEq MaterialSection := by
  unfold MaterialSection
  infer_instance

/-- The whole material snapshot: a resource-kind keyed dictionary, embedded
as an association list in insertion order. -/
def MaterialSnapshot : Type := List (String × MaterialSection)

instance : DecidableEq MaterialSnapshot := by
  unfold MaterialSnapshot
  infer_instance

/-- Embedding of the loop body of `_extract_material_fields` (freshness.py
lines 66-82): walk the whitelisted field names in order and keep only the
fields whose value is present (missing attributes and `None` values are
skipped). -/
def extractFields : List (String × Option MVal) → MaterialSection
  | [] => []
  | (k, some v) :: rest => (k, v) :: extractFields rest
  | (_, none) :: rest => extractFields rest

/-- Source object for the realtime resource: the nine whitelisted fields of
`_TELEMETRY_REALTIME_FIELDS` plus the non-whitelisted transport `timestamp`
field (present on the wire object, never extracted). -/
structure RealtimeSrc where
  elec_percent : Option MVal
  endurance_mileage : Option MVal
  total_mileage : Option MVal
  speed : Option MVal
  temp_in_car : Option MVal
  left_front_tire_pressure : Option MVal
  right_front_tire_pressure : Option MVal
  left_rear_tire_pressure : Option MVal
  right_rear_tire_pressure : Option MVal
  timestamp : Option MVal
deriving DecidableEq, Repr

/-- Source object for the HVAC resource (`_TELEMETRY_HVAC_FIELDS`). -/
structure HvacSrc where
  temp_out_car : Option MVal
  pm : Option MVal
deriving DecidableEq, Repr

/-- Source object for the charging resource (`_TELEMETRY_CHARGING_FIELDS`). -/
structure ChargingSrc where
  soc : Option MVal
  full_hour : Option MVal
  full_minute : Option MVal
deriving DecidableEq, Repr

/-- Source object for the energy resource (`_TELEMETRY_ENERGY_FIELDS`). -/
structure EnergySrc where
  total_energy : Option MVal
  avg_energy_consumption : Option MVal
deriving DecidableEq, Repr

/-- The whitelisted fields of a realtime object, in
`_TELEMETRY_REALTIME_FIELDS` order. -/
def realtimeFieldPairs (r : RealtimeSrc) : List (String × Option MVal) :=
  [ ("elec_percent", r.elec_percent),
    ("endurance_mileage", r.endurance_mileage),
    ("total_mileage", r.total_mileage),
    ("speed", r.speed),
    ("temp_in_car", r.temp_in_car),
    ("left_front_tire_pressure", r.left_front_tire_pressure),
    ("right_front_tire_pressure", r.right_front_tire_pressure),
    ("left_rear_tire_pressure", r.left_rear_tire_pressure),
    ("right_rear_tire_pressure", r.right_rear_tire_pressure) ]

/-- The whitelisted fields of an HVAC object, in `_TELEMETRY_HVAC_FIELDS`
order. -/
def hvacFieldPairs (h : HvacSrc) : List (String × Option MVal) :=
  [ ("temp_out_car", h.temp_out_car), ("pm", h.pm) ]

/-- The whitelisted fields of a charging object, in
`_TELEMETRY_CHARGING_FIELDS` order. -/
def chargingFieldPairs (c : ChargingSrc) : List (String × Option MVal) :=
  [ ("soc", c.soc), ("full_hour", c.full_hour), ("full_minute", c.full_minute) ]

/-- The whitelisted fields of an energy object, in `_TELEMETRY_ENERGY_FIELDS`
order. -/
def energyFieldPairs (e : EnergySrc) : List (String × Option MVal) :=
  [ ("total_energy", e.total_energy),
    ("avg_energy_consumption", e.avg_energy_consumption) ]

/-- Embedding of `_extract_material_fields` applied to an optional source
object (the `obj is None` early return yields the empty dictionary). -/
def extractOpt {σ : Type} (fieldPairs : σ → List (String × Option MVal)) :
    Option σ → MaterialSection
  | none => []
  | some o => extractFields (fieldPairs o)

/-- Embedding of `build_telemetry_material_snapshot` (freshness.py lines
85-111): each section is added, keyed by its resource kind, only when its
extracted field dictionary is non-empty. -/
def build_telemetry_material_snapshot (realtime : Option RealtimeSrc)
    (hvac : Option HvacSrc) (charging : Option ChargingSrc)
    (energy : Option EnergySrc) : MaterialSnapshot :=
  (let rf := extractOpt realtimeFieldPairs realtime
   if rf = [] then [] else [("realtime", rf)]) ++
  (let hf := extractOpt hvacFieldPairs hvac
   if hf = [] then [] else [("hvac", hf)]) ++
  (let cf := extractOpt chargingFieldPairs charging
   if cf = [] then [] else [("charging", cf)]) ++
  (let ef := extractOpt energyFieldPairs energy
   if ef = [] then [] else [("energy", ef)])

/-- Key order on dictionary entries, used to embed the deterministic
`sort_keys=True` serialization order. -/
def keyLe {β : Type} (p q : String × β) : Prop := p.1 ≤ q.1

instance {β : Type} : DecidableRel (@keyLe β) := fun p q =>
  inferInstanceAs (Decidable (p.1 ≤ q.1))

instance {β : Type} : IsTotal (String × β) keyLe :=
  ⟨fun a b => le_total a.1 b.1⟩

instance {β : Type} : IsTrans (String × β) keyLe :=
  ⟨fun _ _ _ h1 h2 => le_trans h1 h2⟩

/-- Key-sorted form of one section, as produced inside
`json.dumps(..., sort_keys=True)`. -/
def canonicalSect (s : MaterialSection) : MaterialSection :=
  List.insertionSort keyLe s

/-- Key-sorted form of the whole snapshot (keys sorted at both nesting
levels), the exact structure determined by the
`json.dumps(snapshot, separators=(",", ":"), sort_keys=True)` payload. -/
def canonicalSnap (m : MaterialSnapshot) : MaterialSnapshot :=
  List.insertionSort keyLe (m.map fun kv => (kv.1, canonicalSect kv.2))

/-- Embedding of `snapshot_digest` (freshness.py lines 114-119).  The source
returns `None` for an empty snapshot and otherwise the SHA-256 hex digest of
the canonical key-sorted JSON payload.  The JSON rendering is injective on
this data and the hash is a fixed function of it, so the digest is embedded
as the canonical key-sorted structure itself: two digests are equal exactly
when the canonical payloads agree. -/
def snapshot_digest (m : MaterialSnapshot) : Option MaterialSnapshot :=
  if m = [] then none else some (canonicalSnap m)

/-- Lookup of the realtime `elec_percent` material value through a snapshot:
the composite read that distinguishes the two snapshots of the
`elec_percent` sensitivity property. -/
def elecOfSnapshot (m : MaterialSnapshot) : Option MVal :=
  (lookupKey "realtime" m).bind fun sec => lookupKey "elec_percent" sec

/-! ## Sample concrete values used by witnesses and counterexamples -/

/-- Sample realtime observation with the vehicle powered off. -/
def rtSampleOff : RealtimeData := { isVehicleOn := false, payload := 0 }

/-- Sample realtime observation with the vehicle powered on. -/
def rtSampleOn : RealtimeData := { isVehicleOn := true, payload := 0 }

/-- Sample cached HVAC value with the A/C on. -/
def hvacSampleOn : HvacStatus :=
  { status := true, mainSettingTempNew := some 21, seatFields := [],
    steeringWheelHeatState := SteeringWheelHeat.off, payload := 0 }

/-- Sample realtime source object: 50 percent charge, zero speed, a
transport timestamp, other whitelisted fields absent. -/
def rtSrcA : RealtimeSrc :=
  { elec_percent := some (MVal.int 50), endurance_mileage := none,
    total_mileage := none, speed := some (MVal.int 0), temp_in_car := none,
    left_front_tire_pressure := none, right_front_tire_pressure := none,
    left_rear_tire_pressure := none, right_rear_tire_pressure := none,
    timestamp := some (MVal.int 1000) }

/-- Sample realtime source object differing from `rtSrcA` in
`elec_percent` only. -/
def rtSrcB : RealtimeSrc :=
  { elec_percent := some (MVal.int 51), endurance_mileage := none,
    total_mileage := none, speed := some (MVal.int 0), temp_in_car := none,
    left_front_tire_pressure := none, right_front_tire_pressure := none,
    left_rear_tire_pressure := none, right_rear_tire_pressure := none,
    timestamp := some (MVal.int 1000) }

/-- Sample two-section snapshot in one key order. -/
def snapSampleA : MaterialSnapshot :=
  [("realtime", [("elec_percent", MVal.int 50), ("speed", MVal.int 0)]),
   ("hvac", [("pm", MVal.int 7)])]

/-- The entries of `snapSampleA` in the opposite key order, with one section
also internally reordered. -/
def snapSampleB : MaterialSnapshot :=
  [("hvac", [("pm", MVal.int 7)]),
   ("realtime", [("speed", MVal.int 0), ("elec_percent", MVal.int 50)])]

/-! ## Helper lemmas about association lists and key sorting -/

@[simp] theorem pyOr_some {α : Type} (a : α) (b : Option α) :
    pyOr (some a) b = some a := rfl

@[simp] theorem pyOr_none {α : Type} (b : Option α) : pyOr none b = b := rfl

theorem lookupKey_eq_none {β : Type} (k : String) :
    ∀ l : List (String × β), lookupKey k l = none ↔ k ∉ l.map Prod.fst := by
  intro l
  induction l with
  | nil => simp [lookupKey]
  | cons p rest ih =>
    simp only [lookupKey, List.map_cons, List.mem_cons]
    split
    · simp_all
    · simp_all [eq_comm]

theorem lookupKey_append {β : Type} (k : String) (l₁ l₂ : List (String × β)) :
    lookupKey k (l₁ ++ l₂) = pyOr (lookupKey k l₁) (lookupKey k l₂) := by
  induction l₁ with
  | nil => simp [lookupKey]
  | cons p rest ih =>
    simp only [List.cons_append, lookupKey]
    split
    · rfl
    · exact ih

theorem lookupKey_map {β γ : Type} (k : String) (f : β → γ) :
    ∀ l : List (String × β),
      lookupKey k (l.map fun kv => (kv.1, f kv.2)) = (lookupKey k l).map f := by
  intro l
  induction l with
  | nil => rfl
  | cons p rest ih =>
    simp only [List.map_cons, lookupKey]
    split
    · rfl
    · exact ih

theorem lookupKey_perm {β : Type} (k : String) :
    ∀ {l₁ l₂ : List (String × β)}, l₁.Perm l₂ →
      (l₁.map Prod.fst).Nodup → lookupKey k l₁ = lookupKey k l₂ := by
  intro l₁ l₂ p
  induction p with
  | nil => intro _; rfl
  | cons x p ih =>
    intro nd
    simp only [lookupKey]
    split
    · rfl
    · exact ih ((List.nodup_cons.mp (by simpa using nd)).2)
  | swap x y l =>
    intro nd
    have hxy : y.1 ≠ x.1 := by
      have h := nd
      simp [List.nodup_cons] at h
      exact h.1.1
    simp only [lookupKey]
    by_cases h1 : y.1 = k <;> by_cases h2 : x.1 = k <;> simp_all
  | trans p₁ p₂ ih₁ ih₂ =>
    intro nd
    exact (ih₁ nd).trans (ih₂ (((p₁.map Prod.fst).nodup_iff).mp nd))

/-- Two key-sorted association lists with the same entries and duplicate-free
keys are equal. -/
theorem sorted_keyLe_perm_eq {β : Type} :
    ∀ {l₁ l₂ : List (String × β)}, l₁.Perm l₂ →
      List.Sorted keyLe l₁ → List.Sorted keyLe l₂ →
      (l₁.map Prod.fst).Nodup → l₁ = l₂ := by
  intro l₁
  induction l₁ with
  | nil =>
    intro l₂ p _ _ _
    exact p.nil_eq
  | cons a t₁ ih =>
    intro l₂ p s₁ s₂ nd
    cases l₂ with
    | nil => exact absurd p.symm.nil_eq (by simp)
    | cons b t₂ =>
      by_cases hab : a = b
      · subst hab
        have : t₁ = t₂ :=
          ih p.cons_inv s₁.of_cons s₂.of_cons
            ((List.nodup_cons.mp (by simpa using nd)).2)
        rw [this]
      · have ha2 : a ∈ t₂ := by
          have := p.subset (List.mem_cons_self a t₁)
          simpa [hab] using this
        have hb1 : b ∈ t₁ := by
          have := p.symm.subset (List.mem_cons_self b t₂)
          have hba : ¬b = a := fun h => hab h.symm
          simpa [hba] using this
        have h1 : keyLe a b := List.rel_of_sorted_cons s₁ b hb1
        have h2 : keyLe b a := List.rel_of_sorted_cons s₂ a ha2
        have hkeys : a.1 = b.1 := le_antisymm h1 h2
        have : a.1 ∈ t₁.map Prod.fst := by
          rw [hkeys]
          exact List.mem_map_of_mem Prod.fst hb1
        exact absurd this (List.nodup_cons.mp (by simpa using nd)).1

/-- Key sorting identifies association lists that are permutations of each
other, provided the keys are duplicate-free. -/
theorem insertionSort_keyLe_eq_of_perm {β : Type} {l₁ l₂ : List (String × β)}
    (p : l₁.Perm l₂) (nd : (l₁.map Prod.fst).Nodup) :
    List.insertionSort keyLe l₁ = List.insertionSort keyLe l₂ := by
  have ps : (List.insertionSort keyLe l₁).Perm (List.insertionSort keyLe l₂) :=
    ((List.perm_insertionSort keyLe l₁).trans p).trans
      (List.perm_insertionSort keyLe l₂).symm
  have nds : ((List.insertionSort keyLe l₁).map Prod.fst).Nodup :=
    (((List.perm_insertionSort keyLe l₁).map Prod.fst).nodup_iff).mpr nd
  exact sorted_keyLe_perm_eq ps
    (List.sorted_insertionSort keyLe l₁) (List.sorted_insertionSort keyLe l₂) nds

theorem extractFields_keys_sublist :
    ∀ pairs : List (String × Option MVal),
      ((extractFields pairs).map Prod.fst).Sublist (pairs.map Prod.fst) := by
  intro pairs
  induction pairs with
  | nil => simp [extractFields]
  | cons p rest ih =>
    rcases p with ⟨k, v⟩
    cases v with
    | some x => simpa [extractFields] using ih.cons₂ k
    | none => simpa [extractFields] using ih.cons k

theorem extractFields_keys_nodup {pairs : List (String × Option MVal)}
    (nd : (pairs.map Prod.fst).Nodup) :
    ((extractFields pairs).map Prod.fst).Nodup :=
  (extractFields_keys_sublist pairs).nodup nd

theorem lookupKey_extractFields (k : String) :
    ∀ pairs : List (String × Option MVal), (pairs.map Prod.fst).Nodup →
      lookupKey k (extractFields pairs) = (lookupKey k pairs).getD none := by
  intro pairs
  induction pairs with
  | nil => intro _; rfl
  | cons p rest ih =>
    intro nd
    rcases p with ⟨k1, v⟩
    have ndr : (rest.map Prod.fst).Nodup := (List.nodup_cons.mp (by simpa using nd)).2
    have hk1 : k1 ∉ rest.map Prod.fst := (List.nodup_cons.mp (by simpa using nd)).1
    cases v with
    | some x =>
      simp only [extractFields, lookupKey]
      split
      · rfl
      · exact ih ndr
    | none =>
      simp only [extractFields, lookupKey]
      split
      · rename_i hkk
        subst hkk
        have : k1 ∉ (extractFields rest).map Prod.fst :=
          fun h => hk1 ((extractFields_keys_sublist rest).subset h)
        simpa using (lookupKey_eq_none k1 (extractFields rest)).mpr this
      · exact ih ndr

/-! ## Lemmas about the material snapshot builder -/

theorem realtimeFieldPairs_keys (r : RealtimeSrc) :
    (realtimeFieldPairs r).map Prod.fst =
      [ "elec_percent", "endurance_mileage", "total_mileage", "speed",
        "temp_in_car", "left_front_tire_pressure", "right_front_tire_pressure",
        "left_rear_tire_pressure", "right_rear_tire_pressure" ] := rfl

theorem realtimeFieldPairs_keys_nodup (r : RealtimeSrc) :
    ((realtimeFieldPairs r).map Prod.fst).Nodup := by
  rw [realtimeFieldPairs_keys]
  decide

theorem extractRealtime_keys_nodup (r : RealtimeSrc) :
    ((extractOpt realtimeFieldPairs (some r)).map Prod.fst).Nodup :=
  extractFields_keys_nodup (realtimeFieldPairs_keys_nodup r)

theorem lookupKey_elec_extract (r : RealtimeSrc) :
    lookupKey "elec_percent" (extractOpt realtimeFieldPairs (some r)) =
      r.elec_percent := by
  have h := lookupKey_extractFields "elec_percent" (realtimeFieldPairs r)
    (realtimeFieldPairs_keys_nodup r)
  have h2 : lookupKey "elec_percent" (realtimeFieldPairs r) = some r.elec_percent := by
    simp [realtimeFieldPairs, lookupKey]
  rw [show extractOpt realtimeFieldPairs (some r) = extractFields (realtimeFieldPairs r)
    from rfl, h, h2]
  rfl

theorem build_keys_nodup (realtime : Option RealtimeSrc) (hvac : Option HvacSrc)
    (charging : Option ChargingSrc) (energy : Option EnergySrc) :
    ((build_telemetry_material_snapshot realtime hvac charging energy).map
      Prod.fst).Nodup := by
  unfold build_telemetry_material_snapshot
  by_cases h1 : extractOpt realtimeFieldPairs realtime = [] <;>
    by_cases h2 : extractOpt hvacFieldPairs hvac = [] <;>
    by_cases h3 : extractOpt chargingFieldPairs charging = [] <;>
    by_cases h4 : extractOpt energyFieldPairs energy = [] <;>
    simp [h1, h2, h3, h4]

theorem lookupKey_realtime_build (realtime : Option RealtimeSrc)
    (hvac : Option HvacSrc) (charging : Option ChargingSrc)
    (energy : Option EnergySrc) :
    lookupKey "realtime" (build_telemetry_material_snapshot realtime hvac charging energy) =
      (if extractOpt realtimeFieldPairs realtime = [] then none
       else some (extractOpt realtimeFieldPairs realtime)) := by
  unfold build_telemetry_material_snapshot
  by_cases h1 : extractOpt realtimeFieldPairs realtime = [] <;>
    by_cases h2 : extractOpt hvacFieldPairs hvac = [] <;>
    by_cases h3 : extractOpt chargingFieldPairs charging = [] <;>
    by_cases h4 : extractOpt energyFieldPairs energy = [] <;>
    simp [h1, h2, h3, h4, lookupKey_append, lookupKey]

theorem elecOfSnapshot_canonical (m : MaterialSnapshot)
    (ndTop : (m.map Prod.fst).Nodup)
    (ndSec : ∀ sec, lookupKey "realtime" m = some sec → (sec.map Prod.fst).Nodup) :
    elecOfSnapshot (canonicalSnap m) = elecOfSnapshot m := by
  unfold elecOfSnapshot canonicalSnap
  have hkeys : ((m.map fun kv => (kv.1, canonicalSect kv.2)).map Prod.fst).Nodup := by
    simpa [List.map_map, Function.comp] using ndTop
  have hperm := List.perm_insertionSort keyLe (m.map fun kv => (kv.1, canonicalSect kv.2))
  have hnodupSorted :
      ((List.insertionSort keyLe
        (m.map fun kv => (kv.1, canonicalSect kv.2))).map Prod.fst).Nodup :=
    ((hperm.map Prod.fst).nodup_iff).mpr hkeys
  rw [lookupKey_perm "realtime" hperm hnodupSorted,
    lookupKey_map "realtime" canonicalSect m]
  cases hsec : lookupKey "realtime" m with
  | none => rfl
  | some sec =>
    show lookupKey "elec_percent" (canonicalSect sec) = lookupKey "elec_percent" sec
    unfold canonicalSect
    have ndS := ndSec sec hsec
    have hpermS := List.perm_insertionSort keyLe sec
    have ndSorted : ((List.insertionSort keyLe sec).map Prod.fst).Nodup :=
      ((hpermS.map Prod.fst).nodup_iff).mpr ndS
    exact lookupKey_perm "elec_percent" hpermS ndSorted

theorem elecOfSnapshot_build (r : RealtimeSrc) (hvac : Option HvacSrc)
    (charging : Option ChargingSrc) (energy : Option EnergySrc) :
    elecOfSnapshot (build_telemetry_material_snapshot (some r) hvac charging energy) =
      r.elec_percent := by
  unfold elecOfSnapshot
  rw [lookupKey_realtime_build]
  by_cases h : extractOpt realtimeFieldPairs (some r) = []
  · rw [if_pos h]
    have h2 := lookupKey_elec_extract r
    rw [h] at h2
    simpa [lookupKey] using h2
  · rw [if_neg h]
    simpa using lookupKey_elec_extract r

/-! ## Claim C1 — GPS cycle failure handling -/

/-- C1 counterexample: with a previously cached location fix of
(52.1, 4.9) present in the coordinator data and a recoverable-class fetch
failure, the GPS refresh cycle raises `UpdateFailed` instead of keeping the
stale cached location and reporting success, so the claimed behavior is false
at this input. -/
theorem C1_counterexample :
    gpsUpdateData
      { data := some { gps := some { latitude := some (521 / 10), longitude := some (49 / 10) } },
        pollingEnabled := true, forceNext := false }
      FetchResult.recoverable =
    GpsOutcome.updateFailed
      { data := some { gps := some { latitude := some (521 / 10), longitude := some (49 / 10) } },
        pollingEnabled := true, forceNext := false } := rfl

/-- C1 (amended): in the fetch phase of a GPS refresh cycle (polling enabled
or forced) with a non-authentication fetch outcome, a recoverable-class
location fetch failure always fails the cycle with an update failure,
regardless of whether a cached location exists; the cycle succeeds exactly
when the fetch returns a fix, and then reports that fresh fix. -/
theorem C1_theorem (st : GpsCycleState) (fetch : FetchResult GpsInfo)
    (hpoll : st.pollingEnabled = true ∨ st.forceNext = true)
    (hauth : fetch ≠ FetchResult.authError) :
    (gpsUpdateData st fetch = GpsOutcome.updateFailed { st with forceNext := false } ↔
      fetch = FetchResult.recoverable) ∧
    (∀ g, fetch = FetchResult.ok g →
      gpsUpdateData st fetch =
        GpsOutcome.ok { gps := some g }
          { st with forceNext := false, data := some { gps := some g } }) := by
  have hcond : ¬(st.pollingEnabled = false ∧ st.forceNext = false) := by
    rcases hpoll with h | h <;> simp [h]
  cases fetch with
  | authError => exact absurd rfl hauth
  | recoverable =>
    refine ⟨?_, ?_⟩
    · simp only [gpsUpdateData, if_neg hcond]
    · intro g h
      exact FetchResult.noConfusion h
  | ok g0 =>
    refine ⟨?_, ?_⟩
    · simp only [gpsUpdateData, if_neg hcond]
      constructor
      · intro h
        exact GpsOutcome.noConfusion h
      · intro h
        exact FetchResult.noConfusion h
    · intro g h
      have hg : g0 = g := by
        cases h
        rfl
      subst hg
      simp only [gpsUpdateData, if_neg hcond]

/-- C1 witness: the amended theorem applied at a concrete state with a cached
fix and a recoverable failure, and at the same state with a successful
fetch. -/
theorem C1_witness :
    (gpsUpdateData
      { data := some { gps := some { latitude := some 52, longitude := some 5 } },
        pollingEnabled := true, forceNext := false }
      FetchResult.recoverable =
      GpsOutcome.updateFailed
        { data := some { gps := some { latitude := some 52, longitude := some 5 } },
          pollingEnabled := true, forceNext := false }) ∧
    (gpsUpdateData
      { data := some { gps := some { latitude := some 52, longitude := some 5 } },
        pollingEnabled := true, forceNext := false }
      (FetchResult.ok { latitude := some 53, longitude := some 6 }) =
      GpsOutcome.ok { gps := some { latitude := some 53, longitude := some 6 } }
        { data := some { gps := some { latitude := some 53, longitude := some 6 } },
          pollingEnabled := true, forceNext := false }) := by
  constructor
  · exact (C1_theorem
      { data := some { gps := some { latitude := some 52, longitude := some 5 } },
        pollingEnabled := true, forceNext := false }
      FetchResult.recoverable (Or.inl rfl) (by decide)).1.mpr rfl
  · exact (C1_theorem
      { data := some { gps := some { latitude := some 52, longitude := some 5 } },
        pollingEnabled := true, forceNext := false }
      (FetchResult.ok { latitude := some 53, longitude := some 6 })
      (Or.inl rfl) (by decide)).2 _ rfl

/-! ## Claim C2 — null-island location value guard -/

/-- C2 counterexample: an incoming fix with a missing latitude but a present,
ordinary longitude is returned by `guard_gps_coordinates` instead of the
previously cached fix, so the claim that any fix with a missing coordinate is
treated as invalid is false at this input. -/
theorem C2_counterexample :
    guard_gps_coordinates
      (some { latitude := some (521 / 10), longitude := some (49 / 10) })
      (some { latitude := none, longitude := some 5 }) =
      some { latitude := none, longitude := some 5 } ∧
    ({ latitude := none, longitude := some 5 } : GpsInfo) ≠
      { latitude := some (521 / 10), longitude := some (49 / 10) } := by
  constructor
  · rfl
  · intro h
    exact Option.noConfusion (congrArg GpsInfo.latitude h)

/-- C2 (amended): for every pair of location fixes processed by
`guard_gps_coordinates`: an incoming fix whose coordinates are both present
and within the 0.1 epsilon of (0, 0), or whose coordinates are both missing,
is treated as invalid and the previously cached fix is returned instead; an
incoming fix with both coordinates present and outside the null-island
epsilon replaces the previous one, and so does an incoming fix with exactly
one missing coordinate; when there is no previous fix at all, the incoming
fix is always accepted, including a (0.0, 0.0) fix. -/
theorem C2_theorem :
    (∀ inc : Option GpsInfo, guard_gps_coordinates none inc = inc) ∧
    (∀ p i : GpsInfo, i.latitude = none → i.longitude = none →
      guard_gps_coordinates (some p) (some i) = some p) ∧
    (∀ (p i : GpsInfo) (lat lon : ℚ), i.latitude = some lat → i.longitude = some lon →
      |lat| < gpsNullIslandThreshold → |lon| < gpsNullIslandThreshold →
      guard_gps_coordinates (some p) (some i) = some p) ∧
    (∀ (p i : GpsInfo) (lat lon : ℚ), i.latitude = some lat → i.longitude = some lon →
      ¬(|lat| < gpsNullIslandThreshold ∧ |lon| < gpsNullIslandThreshold) →
      guard_gps_coordinates (some p) (some i) = some i) ∧
    (∀ p i : GpsInfo,
      (i.latitude = none ∧ i.longitude ≠ none) ∨
        (i.latitude ≠ none ∧ i.longitude = none) →
      guard_gps_coordinates (some p) (some i) = some i) := by
  refine ⟨?_, ?_, ?_, ?_, ?_⟩
  · intro inc
    cases inc <;> rfl
  · intro p i h1 h2
    obtain ⟨la, lo⟩ := i
    cases h1
    cases h2
    rfl
  · intro p i lat lon h1 h2 h3 h4
    obtain ⟨la, lo⟩ := i
    cases h1
    cases h2
    simp only [guard_gps_coordinates]
    rw [if_pos ⟨h3, h4⟩]
  · intro p i lat lon h1 h2 h3
    obtain ⟨la, lo⟩ := i
    cases h1
    cases h2
    simp only [guard_gps_coordinates]
    rw [if_neg h3]
  · intro p i h
    obtain ⟨la, lo⟩ := i
    rcases h with ⟨h1, h2⟩ | ⟨h1, h2⟩
    · cases h1
      obtain ⟨lo0, rfl⟩ := Option.ne_none_iff_exists.mp h2
      rfl
    · cases h2
      obtain ⟨la0, rfl⟩ := Option.ne_none_iff_exists.mp h1
      rfl

/-- C2 witness: the amended theorem applied at the concrete fixes of the
specification examples: a (0.03, -0.02) fix with a prior (52.1, 4.9) yields
the prior fix, a (52.2, 5.0) fix replaces it, and a very first (0, 0) fix is
accepted. -/
theorem C2_witness :
    (guard_gps_coordinates
      (some { latitude := some (521 / 10), longitude := some (49 / 10) })
      (some { latitude := some (3 / 100), longitude := some (-2 / 100) }) =
      some { latitude := some (521 / 10), longitude := some (49 / 10) }) ∧
    (guard_gps_coordinates
      (some { latitude := some (521 / 10), longitude := some (49 / 10) })
      (some { latitude := some (522 / 10), longitude := some 5 }) =
      some { latitude := some (522 / 10), longitude := some 5 }) ∧
    (guard_gps_coordinates none (some { latitude := some 0, longitude := some 0 }) =
      some { latitude := some 0, longitude := some 0 }) := by
  refine ⟨?_, ?_, ?_⟩
  · refine C2_theorem.2.2.1 _ _ (3 / 100) (-2 / 100) rfl rfl ?_ ?_
    · rw [abs_of_pos (by norm_num)]
      norm_num [gpsNullIslandThreshold]
    · rw [abs_of_neg (by norm_num)]
      norm_num [gpsNullIslandThreshold]
  · refine C2_theorem.2.2.2.1 _ _ (522 / 10) 5 rfl rfl ?_
    intro h
    have h1 := h.1
    rw [abs_of_pos (by norm_num)] at h1
    norm_num [gpsNullIslandThreshold] at h1
  · exact C2_theorem.1 (some { latitude := some 0, longitude := some 0 })

/-! ## Helper lemmas about the telemetry fetch cycle -/

theorem telemetryFinish_ok_info {st : TelemetryState} {realtime : Option RealtimeData}
    {rtF : Bool} {hv : Option HvacStatus} {hvF hvReq : Bool} {d : TelemetryData}
    {info : TelemetryFetchInfo} {st2 : TelemetryState}
    (h : telemetryFinish st realtime rtF hv hvF hvReq = .ok d info st2) :
    info = ⟨rtF, hvF, hvReq⟩ := by
  simp only [telemetryFinish] at h
  split at h
  · exact TelemetryOutcome.noConfusion h
  · injection h with h1 h2 h3
    exact h2.symm

theorem telemetryAfterRealtime_ok_info {st : TelemetryState} {now : ℚ} {force : Bool}
    {realtime : Option RealtimeData} {rtF : Bool} {hvacRes : FetchResult HvacStatus}
    {d : TelemetryData} {info : TelemetryFetchInfo} {st2 : TelemetryState}
    (h : telemetryAfterRealtime st now force realtime rtF hvacRes = .ok d info st2) :
    info.hvacRequested = shouldFetchHvac st.lastHvac (pyOr realtime st.lastRealtime) force := by
  cases hvacRes with
  | authError =>
    simp only [telemetryAfterRealtime] at h
    split at h
    · exact TelemetryOutcome.noConfusion h
    · rename_i hcond
      rw [telemetryFinish_ok_info h]
      exact (Bool.eq_false_iff.mpr hcond).symm
  | recoverable =>
    simp only [telemetryAfterRealtime] at h
    split at h
    · rename_i hcond
      rw [telemetryFinish_ok_info h, hcond]
    · rename_i hcond
      rw [telemetryFinish_ok_info h]
      exact (Bool.eq_false_iff.mpr hcond).symm
  | ok h0 =>
    simp only [telemetryAfterRealtime] at h
    split at h
    · rename_i hcond
      rcases hacc : acceptHvacUpdate st now h0 with ⟨b, stg⟩
      rw [hacc] at h
      cases b
      · rw [telemetryFinish_ok_info h, hcond]
      · rw [telemetryFinish_ok_info h, hcond]
    · rename_i hcond
      rw [telemetryFinish_ok_info h]
      exact (Bool.eq_false_iff.mpr hcond).symm

theorem acceptHvacUpdate_lastHvac (st : TelemetryState) (now : ℚ) (hvac : HvacStatus) :
    (acceptHvacUpdate st now hvac).2.lastHvac = st.lastHvac ∧
    (acceptHvacUpdate st now hvac).2.lastRealtime = st.lastRealtime := by
  unfold acceptHvacUpdate
  rcases st with ⟨data, lastRt, lastHv, gU, gE⟩
  cases gU with
  | none => exact ⟨rfl, rfl⟩
  | some t =>
    by_cases h1 : t ≤ now
    · simp [h1]
    · by_cases h2 : gE = some hvac.is_ac_on <;> simp [h1, h2]


theorem telemetryFinish_lastState {st : TelemetryState} {realtime : Option RealtimeData}
    {rtF : Bool} {hv : Option HvacStatus} {hvF hvReq : Bool} :
    (∀ st2, telemetryFinish st realtime rtF hv hvF hvReq = .updateFailed st2 →
      (st.lastRealtime ≠ none → st2.lastRealtime ≠ none) ∧
      (st.lastHvac ≠ none → st2.lastHvac ≠ none)) ∧
    (∀ d info st2, telemetryFinish st realtime rtF hv hvF hvReq = .ok d info st2 →
      ((st.lastRealtime ≠ none → st2.lastRealtime ≠ none) ∧
       (st.lastHvac ≠ none → st2.lastHvac ≠ none)) ∧
      (isVehicleOnOpt (pyOr realtime st.lastRealtime) = some true →
        st.lastHvac ≠ none → d.hvac ≠ none)) := by
  rcases st with ⟨data, lastRt, lastHv, gU, gE⟩
  cases realtime with
  | some r =>
    cases hv with
    | some h0 =>
      refine ⟨fun st2 h => TelemetryOutcome.noConfusion h, fun d info st2 h => ?_⟩
      injection h with h1 h2 h3
      subst h1
      subst h3
      exact ⟨⟨fun _ => by simp, fun _ => by simp⟩, fun _ _ => by simp⟩
    | none =>
      refine ⟨fun st2 h => TelemetryOutcome.noConfusion h, fun d info st2 h => ?_⟩
      injection h with h1 h2 h3
      subst h1
      subst h3
      refine ⟨⟨fun _ => by simp, fun hh => by simpa using hh⟩, fun hOn hLast => ?_⟩
      have hOn2 : isVehicleOnOpt (some r) = some true := hOn
      show (pyOr none (if isVehicleOnOpt (some r) = some true then lastHv else none)) ≠ none
      rw [if_pos hOn2]
      simpa using hLast
  | none =>
    cases lastRt with
    | none =>
      refine ⟨fun st2 h => ?_, fun d info st2 h => ?_⟩
      · simp only [telemetryFinish] at h
        injection h with h1
        subst h1
        refine ⟨fun hc => absurd rfl hc, fun hh => ?_⟩
        cases hv with
        | some h0 => simp
        | none => simpa using hh
      · simp only [telemetryFinish] at h
        exact TelemetryOutcome.noConfusion h
    | some r0 =>
      refine ⟨fun st2 h => ?_, fun d info st2 h => ?_⟩
      · simp only [telemetryFinish] at h
        exact TelemetryOutcome.noConfusion h
      · simp only [telemetryFinish] at h
        injection h with h1 h2 h3
        subst h1
        subst h3
        refine ⟨⟨fun _ => by simp, fun hh => ?_⟩, fun hOn hLast => ?_⟩
        · cases hv with
          | some h0 => simp
          | none => simpa using hh
        · have hOn2 : isVehicleOnOpt (some r0) = some true := hOn
          cases hv with
          | some h0 => simp
          | none =>
            show (pyOr none
              (if isVehicleOnOpt (some r0) = some true then lastHv else none)) ≠ none
            rw [if_pos hOn2]
            simpa using hLast

/-! ## Claim C4 — optimistic HVAC guard state machine -/

/-- C4: while the guard is armed with expected value `e` and expiry `t`, a
candidate HVAC observation is accepted if and only if the monotonic clock has
passed the expiry or the candidate guarded value equals `e`; on acceptance
the guard is cleared, on rejection the whole state (in particular the
expected value and the expiry) is unchanged. -/
theorem C4_theorem (st : TelemetryState) (t : ℚ) (e : Bool) (now : ℚ)
    (cand : HvacStatus) (hArm1 : st.guardUntil = some t)
    (hArm2 : st.guardExpected = some e) :
    ((acceptHvacUpdate st now cand).1 = true ↔ (t ≤ now ∨ cand.is_ac_on = e)) ∧
    ((acceptHvacUpdate st now cand).1 = true →
      (acceptHvacUpdate st now cand).2 =
        { st with guardUntil := none, guardExpected := none }) ∧
    ((acceptHvacUpdate st now cand).1 = false →
      (acceptHvacUpdate st now cand).2 = st) := by
  unfold acceptHvacUpdate
  rw [hArm1, hArm2]
  by_cases h1 : t ≤ now
  · simp [h1]
  · by_cases h2 : cand.is_ac_on = e
    · have h2e : some e = some cand.is_ac_on := by rw [h2]
      simp [h1, h2, h2e]
    · have h2e : ¬(some e = some cand.is_ac_on) := by
        intro hx
        exact h2 (Option.some_injective Bool hx).symm
      simp [h1, h2, h2e]

/-- C4 witness: the guard armed as `expected = true`, `expiry = 100`; a
`false` candidate before expiry is rejected leaving the guard armed, a `true`
candidate is accepted and clears the guard, and a `false` candidate after
expiry is accepted and clears the guard. -/
theorem C4_witness :
    ((acceptHvacUpdate
        { data := none, lastRealtime := none, lastHvac := none,
          guardUntil := some 100, guardExpected := some true } 50
        { status := false, mainSettingTempNew := none, seatFields := [],
          steeringWheelHeatState := SteeringWheelHeat.off, payload := 0 }) =
      (false,
        { data := none, lastRealtime := none, lastHvac := none,
          guardUntil := some 100, guardExpected := some true })) ∧
    ((acceptHvacUpdate
        { data := none, lastRealtime := none, lastHvac := none,
          guardUntil := some 100, guardExpected := some true } 50
        { status := true, mainSettingTempNew := none, seatFields := [],
          steeringWheelHeatState := SteeringWheelHeat.off, payload := 0 }) =
      (true,
        { data := none, lastRealtime := none, lastHvac := none,
          guardUntil := none, guardExpected := none })) ∧
    ((acceptHvacUpdate
        { data := none, lastRealtime := none, lastHvac := none,
          guardUntil := some 100, guardExpected := some true } 150
        { status := false, mainSettingTempNew := none, seatFields := [],
          steeringWheelHeatState := SteeringWheelHeat.off, payload := 0 }) =
      (true,
        { data := none, lastRealtime := none, lastHvac := none,
          guardUntil := none, guardExpected := none })) := by
  refine ⟨?_, ?_, ?_⟩
  · have h := C4_theorem
      { data := none, lastRealtime := none, lastHvac := none,
        guardUntil := some 100, guardExpected := some true } 100 true 50
      { status := false, mainSettingTempNew := none, seatFields := [],
        steeringWheelHeatState := SteeringWheelHeat.off, payload := 0 } rfl rfl
    have hrej : ¬((100 : ℚ) ≤ 50 ∨
        HvacStatus.is_ac_on
          { status := false, mainSettingTempNew := none, seatFields := [],
            steeringWheelHeatState := SteeringWheelHeat.off, payload := 0 } = true) := by
      rintro (hx | hx)
      · norm_num at hx
      · exact Bool.noConfusion hx
    have hfa : (acceptHvacUpdate
        { data := none, lastRealtime := none, lastHvac := none,
          guardUntil := some 100, guardExpected := some true } 50
        { status := false, mainSettingTempNew := none, seatFields := [],
          steeringWheelHeatState := SteeringWheelHeat.off, payload := 0 }).1 = false := by
      cases hb : (acceptHvacUpdate
          { data := none, lastRealtime := none, lastHvac := none,
            guardUntil := some 100, guardExpected := some true } 50
          { status := false, mainSettingTempNew := none, seatFields := [],
            steeringWheelHeatState := SteeringWheelHeat.off, payload := 0 }).1
      · rfl
      · exact absurd (h.1.mp hb) hrej
    have hst := h.2.2 hfa
    exact Prod.ext hfa hst
  · have h := C4_theorem
      { data := none, lastRealtime := none, lastHvac := none,
        guardUntil := some 100, guardExpected := some true } 100 true 50
      { status := true, mainSettingTempNew := none, seatFields := [],
        steeringWheelHeatState := SteeringWheelHeat.off, payload := 0 } rfl rfl
    have hacc := h.1.mpr (Or.inr rfl)
    exact Prod.ext hacc (h.2.1 hacc)
  · have h := C4_theorem
      { data := none, lastRealtime := none, lastHvac := none,
        guardUntil := some 100, guardExpected := some true } 100 true 150
      { status := false, mainSettingTempNew := none, seatFields := [],
        steeringWheelHeatState := SteeringWheelHeat.off, payload := 0 } rfl rfl
    have hacc := h.1.mpr (Or.inl (by norm_num))
    exact Prod.ext hacc (h.2.1 hacc)

/-! ## Claim C5 — conditional climate fetch -/

/-- C5: in every telemetry cycle that reaches the fetch phase, the climate
round-trip is issued if and only if no climate value has ever been cached, or
the cycle is forced, or the gating realtime value (freshly fetched, else last
cached) indicates the vehicle is powered on; stated both for the decision
function itself and for the fetch cycle that consumes it. -/
theorem C5_theorem :
    (∀ (lastHvac : Option HvacStatus) (gate : Option RealtimeData) (force : Bool),
      shouldFetchHvac lastHvac gate force = true ↔
        (lastHvac = none ∨ force = true ∨ isVehicleOnOpt gate = some true)) ∧
    (∀ (st : TelemetryState) (now : ℚ) (force : Bool)
        (rtRes : FetchResult RealtimeData) (hvacRes : FetchResult HvacStatus)
        (d : TelemetryData) (info : TelemetryFetchInfo) (st2 : TelemetryState),
      telemetryFetch st now force rtRes hvacRes = .ok d info st2 →
      (info.hvacRequested = true ↔
        (st.lastHvac = none ∨ force = true ∨
          isVehicleOnOpt (pyOr rtRes.toOption st.lastRealtime) = some true))) := by
  have hdec : ∀ (lastHvac : Option HvacStatus) (gate : Option RealtimeData) (force : Bool),
      shouldFetchHvac lastHvac gate force = true ↔
        (lastHvac = none ∨ force = true ∨ isVehicleOnOpt gate = some true) := by
    intro lastHvac gate force
    unfold shouldFetchHvac
    by_cases h1 : lastHvac = none
    · simp [h1]
    · by_cases h2 : force
      · simp [h1, h2]
      · simp [h1, h2]
  refine ⟨hdec, ?_⟩
  intro st now force rtRes hvacRes d info st2 h
  have hreq : info.hvacRequested =
      shouldFetchHvac st.lastHvac (pyOr rtRes.toOption st.lastRealtime) force := by
    cases rtRes with
    | authError => exact TelemetryOutcome.noConfusion h
    | recoverable => exact telemetryAfterRealtime_ok_info h
    | ok r => exact telemetryAfterRealtime_ok_info h
  rw [hreq]
  exact hdec st.lastHvac (pyOr rtRes.toOption st.lastRealtime) force

/-- C5 witness: the decision function and the cycle at concrete inputs — a
powered-off vehicle with a cached climate value and no force skips the
climate fetch, while a powered-on vehicle fetches it. -/
theorem C5_witness :
    (shouldFetchHvac
      (some { status := true, mainSettingTempNew := none, seatFields := [],
              steeringWheelHeatState := SteeringWheelHeat.off, payload := 0 })
      (some { isVehicleOn := false, payload := 0 }) false = false) ∧
    (shouldFetchHvac
      (some { status := true, mainSettingTempNew := none, seatFields := [],
              steeringWheelHeatState := SteeringWheelHeat.off, payload := 0 })
      (some { isVehicleOn := true, payload := 0 }) false = true) ∧
    (shouldFetchHvac none none false = true) := by
  refine ⟨?_, ?_, ?_⟩
  · have h := (C5_theorem.1
      (some { status := true, mainSettingTempNew := none, seatFields := [],
              steeringWheelHeatState := SteeringWheelHeat.off, payload := 0 })
      (some { isVehicleOn := false, payload := 0 }) false)
    cases hb : shouldFetchHvac
        (some { status := true, mainSettingTempNew := none, seatFields := [],
                steeringWheelHeatState := SteeringWheelHeat.off, payload := 0 })
        (some { isVehicleOn := false, payload := 0 }) false
    · rfl
    · have := h.mp hb
      rcases this with hx | hx | hx
      · exact Option.noConfusion hx
      · exact Bool.noConfusion hx
      · simp [isVehicleOnOpt] at hx
  · exact (C5_theorem.1 _ _ _).mpr (Or.inr (Or.inr rfl))
  · exact (C5_theorem.1 _ _ _).mpr (Or.inl rfl)

theorem pyOr_eq_none {α : Type} (a b : Option α) :
    pyOr a b = none ↔ (a = none ∧ b = none) := by
  cases a <;> simp

theorem telemetryFinish_outcome (st : TelemetryState) (realtime : Option RealtimeData)
    (rtF : Bool) (hv : Option HvacStatus) (hvF hvReq : Bool) :
    (pyOr realtime st.lastRealtime = none →
      ∃ st2, telemetryFinish st realtime rtF hv hvF hvReq = .updateFailed st2) ∧
    (∀ st2, telemetryFinish st realtime rtF hv hvF hvReq = .updateFailed st2 →
      pyOr realtime st.lastRealtime = none) ∧
    (∀ er, pyOr realtime st.lastRealtime = some er →
      ∃ d st2, telemetryFinish st realtime rtF hv hvF hvReq =
        .ok d ⟨rtF, hvF, hvReq⟩ st2 ∧ d.realtime = some er) := by
  rcases st with ⟨data, lastRt, lastHv, gU, gE⟩
  cases realtime with
  | some r =>
    refine ⟨fun h => Option.noConfusion h, fun st2 h => ?_, fun er her => ?_⟩
    · exact TelemetryOutcome.noConfusion h
    · injection her with hre
      subst hre
      exact ⟨_, _, rfl, rfl⟩
  | none =>
    cases lastRt with
    | none =>
      refine ⟨fun _ => ⟨_, rfl⟩, fun st2 _ => rfl, fun er her => Option.noConfusion her⟩
    | some r0 =>
      refine ⟨fun h => Option.noConfusion h, fun st2 h => TelemetryOutcome.noConfusion h,
        fun er her => ?_⟩
      injection her with hre
      subst hre
      exact ⟨_, _, rfl, rfl⟩

/-! ## Claim C6 — telemetry cycle failure condition -/

/-- C6: under non-authentication fetch outcomes, the telemetry fetch phase
raises an update failure exactly when the realtime resource was obtained
neither from the network nor from the cache; and whenever realtime is
available from either source the cycle returns a result carrying it, with a
recoverable climate failure merely recorded in the endpoint failure map
(recorded exactly when the climate round-trip was issued). -/
theorem C6_theorem (st : TelemetryState) (now : ℚ) (force : Bool)
    (rtRes : FetchResult RealtimeData) (hvacRes : FetchResult HvacStatus)
    (hAuth1 : rtRes ≠ FetchResult.authError)
    (hAuth2 : hvacRes ≠ FetchResult.authError) :
    ((∃ st2, telemetryFetch st now force rtRes hvacRes = .updateFailed st2) ↔
      (rtRes.toOption = none ∧ st.lastRealtime = none)) ∧
    (∀ er, pyOr rtRes.toOption st.lastRealtime = some er →
      ∃ d info st2, telemetryFetch st now force rtRes hvacRes = .ok d info st2 ∧
        d.realtime = some er ∧
        (hvacRes = FetchResult.recoverable → info.hvacFailed = info.hvacRequested)) := by
  have main : ∀ (realtime : Option RealtimeData) (rtF : Bool),
      ((∃ st2, telemetryAfterRealtime st now force realtime rtF hvacRes =
          .updateFailed st2) ↔ (realtime = none ∧ st.lastRealtime = none)) ∧
      (∀ er, pyOr realtime st.lastRealtime = some er →
        ∃ d info st2, telemetryAfterRealtime st now force realtime rtF hvacRes =
            .ok d info st2 ∧ d.realtime = some er ∧
          (hvacRes = FetchResult.recoverable → info.hvacFailed = info.hvacRequested)) := by
    intro realtime rtF
    cases hvacRes with
    | authError => exact absurd rfl hAuth2
    | recoverable =>
      simp only [telemetryAfterRealtime]
      split
      · rename_i hcond
        constructor
        · constructor
          · rintro ⟨st2, h⟩
            have := (telemetryFinish_outcome st realtime rtF none true true).2.1 st2 h
            exact (pyOr_eq_none _ _).mp this
          · rintro ⟨ha, hb⟩
            subst ha
            apply (telemetryFinish_outcome st none rtF none true true).1
            simpa using hb
        · intro er her
          obtain ⟨d, st2, hh, hd⟩ :=
            (telemetryFinish_outcome st realtime rtF none true true).2.2 er her
          exact ⟨d, _, st2, hh, hd, fun _ => rfl⟩
      · rename_i hcond
        constructor
        · constructor
          · rintro ⟨st2, h⟩
            have := (telemetryFinish_outcome st realtime rtF none false false).2.1 st2 h
            exact (pyOr_eq_none _ _).mp this
          · rintro ⟨ha, hb⟩
            subst ha
            apply (telemetryFinish_outcome st none rtF none false false).1
            simpa using hb
        · intro er her
          obtain ⟨d, st2, hh, hd⟩ :=
            (telemetryFinish_outcome st realtime rtF none false false).2.2 er her
          exact ⟨d, _, st2, hh, hd, fun _ => rfl⟩
    | ok h0 =>
      simp only [telemetryAfterRealtime]
      split
      · rename_i hcond
        rcases hacc : acceptHvacUpdate st now h0 with ⟨b, stg⟩
        have hstg : stg.lastRealtime = st.lastRealtime := by
          have := (acceptHvacUpdate_lastHvac st now h0).2
          rw [hacc] at this
          exact this
        cases b
        · constructor
          · constructor
            · rintro ⟨st2, h⟩
              have := (telemetryFinish_outcome stg realtime rtF none false true).2.1 st2 h
              rw [hstg] at this
              exact (pyOr_eq_none _ _).mp this
            · rintro ⟨ha, hb⟩
              subst ha
              apply (telemetryFinish_outcome stg none rtF none false true).1
              rw [hstg]
              simpa using hb
          · intro er her
            rw [← hstg] at her
            obtain ⟨d, st2, hh, hd⟩ :=
              (telemetryFinish_outcome stg realtime rtF none false true).2.2 er her
            exact ⟨d, _, st2, hh, hd, fun hx => FetchResult.noConfusion hx⟩
        · constructor
          · constructor
            · rintro ⟨st2, h⟩
              have := (telemetryFinish_outcome stg realtime rtF (some h0) false true).2.1 st2 h
              rw [hstg] at this
              exact (pyOr_eq_none _ _).mp this
            · rintro ⟨ha, hb⟩
              subst ha
              apply (telemetryFinish_outcome stg none rtF (some h0) false true).1
              rw [hstg]
              simpa using hb
          · intro er her
            rw [← hstg] at her
            obtain ⟨d, st2, hh, hd⟩ :=
              (telemetryFinish_outcome stg realtime rtF (some h0) false true).2.2 er her
            exact ⟨d, _, st2, hh, hd, fun hx => FetchResult.noConfusion hx⟩
      · constructor
        · constructor
          · rintro ⟨st2, h⟩
            have := (telemetryFinish_outcome st realtime rtF none false false).2.1 st2 h
            exact (pyOr_eq_none _ _).mp this
          · rintro ⟨ha, hb⟩
            subst ha
            apply (telemetryFinish_outcome st none rtF none false false).1
            simpa using hb
        · intro er her
          obtain ⟨d, st2, hh, hd⟩ :=
            (telemetryFinish_outcome st realtime rtF none false false).2.2 er her
          exact ⟨d, _, st2, hh, hd, fun hx => FetchResult.noConfusion hx⟩
  cases rtRes with
  | authError => exact absurd rfl hAuth1
  | recoverable => exact main none true
  | ok r => exact main (some r) false

/-- C6 witness: with a cached realtime value and both fetches failing
recoverably, the cycle still returns a result carrying the cached realtime
value, with the climate failure recorded exactly when the climate round-trip
was issued. -/
theorem C6_witness :
    ∃ d info st2,
      telemetryFetch
        { data := none, lastRealtime := some { isVehicleOn := false, payload := 0 },
          lastHvac := none, guardUntil := none, guardExpected := none } 0 true
        FetchResult.recoverable FetchResult.recoverable = .ok d info st2 ∧
      d.realtime = some { isVehicleOn := false, payload := 0 } ∧
      ((FetchResult.recoverable : FetchResult HvacStatus) = FetchResult.recoverable →
        info.hvacFailed = info.hvacRequested) :=
  (C6_theorem
    { data := none, lastRealtime := some { isVehicleOn := false, payload := 0 },
      lastHvac := none, guardUntil := none, guardExpected := none } 0 true
    FetchResult.recoverable FetchResult.recoverable (by decide) (by decide)).2
    { isVehicleOn := false, payload := 0 } rfl

/-! ## Claim C3 — cache-preservation invariant -/

/-- C3 counterexample: a telemetry cycle with a populated HVAC cache, the
vehicle reported off, and a forced climate fetch that fails recoverably
returns a result whose climate entry is empty even though the cached climate
value was populated and never replaced — so a populated climate value is not
present in the result of every subsequent telemetry cycle. -/
theorem C3_counterexample :
    telemetryFetch
      { data := none, lastRealtime := some rtSampleOff,
        lastHvac := some hvacSampleOn, guardUntil := none, guardExpected := none }
      0 true (FetchResult.ok rtSampleOff) FetchResult.recoverable =
    TelemetryOutcome.ok
      { realtime := some rtSampleOff, hvac := none }
      { realtimeFailed := false, hvacFailed := true, hvacRequested := true }
      { data := some { realtime := some rtSampleOff, hvac := none },
        lastRealtime := some rtSampleOff, lastHvac := some hvacSampleOn,
        guardUntil := none, guardExpected := none } := by
  decide

/-- C3 (amended): the internal per-vehicle cache is never cleared by a later
cycle — a populated realtime or climate cache entry stays populated across
every cycle outcome, only ever replaced by a newer value — and a populated
climate value is still present in the cycle result whenever the gating
realtime value reports the vehicle powered on; when the vehicle is powered
off and no fresh climate value was accepted, the result omits the climate
entry even though the cache keeps it. -/
theorem C3_theorem (st : TelemetryState) (now : ℚ) (force : Bool)
    (rtRes : FetchResult RealtimeData) (hvacRes : FetchResult HvacStatus) :
    (∀ st2, telemetryFetch st now force rtRes hvacRes = .updateFailed st2 →
      (st.lastRealtime ≠ none → st2.lastRealtime ≠ none) ∧
      (st.lastHvac ≠ none → st2.lastHvac ≠ none)) ∧
    (∀ d info st2, telemetryFetch st now force rtRes hvacRes = .ok d info st2 →
      ((st.lastRealtime ≠ none → st2.lastRealtime ≠ none) ∧
       (st.lastHvac ≠ none → st2.lastHvac ≠ none)) ∧
      (isVehicleOnOpt (pyOr rtRes.toOption st.lastRealtime) = some true →
        st.lastHvac ≠ none → d.hvac ≠ none)) := by
  have main : ∀ (realtime : Option RealtimeData) (rtF : Bool),
      (∀ st2, telemetryAfterRealtime st now force realtime rtF hvacRes =
          .updateFailed st2 →
        (st.lastRealtime ≠ none → st2.lastRealtime ≠ none) ∧
        (st.lastHvac ≠ none → st2.lastHvac ≠ none)) ∧
      (∀ d info st2, telemetryAfterRealtime st now force realtime rtF hvacRes =
          .ok d info st2 →
        ((st.lastRealtime ≠ none → st2.lastRealtime ≠ none) ∧
         (st.lastHvac ≠ none → st2.lastHvac ≠ none)) ∧
        (isVehicleOnOpt (pyOr realtime st.lastRealtime) = some true →
          st.lastHvac ≠ none → d.hvac ≠ none)) := by
    intro realtime rtF
    cases hvacRes with
    | authError =>
      simp only [telemetryAfterRealtime]
      split
      · exact ⟨fun st2 h => TelemetryOutcome.noConfusion h,
          fun d info st2 h => TelemetryOutcome.noConfusion h⟩
      · exact ⟨fun st2 h => (telemetryFinish_lastState).1 st2 h,
          fun d info st2 h => (telemetryFinish_lastState).2 d info st2 h⟩
    | recoverable =>
      simp only [telemetryAfterRealtime]
      split
      · exact ⟨fun st2 h => (telemetryFinish_lastState).1 st2 h,
          fun d info st2 h => (telemetryFinish_lastState).2 d info st2 h⟩
      · exact ⟨fun st2 h => (telemetryFinish_lastState).1 st2 h,
          fun d info st2 h => (telemetryFinish_lastState).2 d info st2 h⟩
    | ok h0 =>
      simp only [telemetryAfterRealtime]
      split
      · rcases hacc : acceptHvacUpdate st now h0 with ⟨b, stg⟩
        have hstg1 : stg.lastHvac = st.lastHvac := by
          have := (acceptHvacUpdate_lastHvac st now h0).1
          rw [hacc] at this
          exact this
        have hstg2 : stg.lastRealtime = st.lastRealtime := by
          have := (acceptHvacUpdate_lastHvac st now h0).2
          rw [hacc] at this
          exact this
        cases b
        · refine ⟨fun st2 h => ?_, fun d info st2 h => ?_⟩
          · have := (telemetryFinish_lastState).1 st2 h
            rw [hstg1, hstg2] at this
            exact this
          · have := (telemetryFinish_lastState).2 d info st2 h
            rw [hstg1, hstg2] at this
            exact this
        · refine ⟨fun st2 h => ?_, fun d info st2 h => ?_⟩
          · have := (telemetryFinish_lastState).1 st2 h
            rw [hstg1, hstg2] at this
            exact this
          · have := (telemetryFinish_lastState).2 d info st2 h
            rw [hstg1, hstg2] at this
            exact this
      · exact ⟨fun st2 h => (telemetryFinish_lastState).1 st2 h,
          fun d info st2 h => (telemetryFinish_lastState).2 d info st2 h⟩
  cases rtRes with
  | authError =>
    exact ⟨fun st2 h => TelemetryOutcome.noConfusion h,
      fun d info st2 h => TelemetryOutcome.noConfusion h⟩
  | recoverable => exact main none true
  | ok r => exact main (some r) false

/-- C3 witness: with a powered-on cached realtime value, a populated climate
cache and both fetches failing recoverably, the amended theorem yields that
the cycle keeps both cache entries populated and still presents the cached
climate value in its result. -/
theorem C3_witness :
    ((some rtSampleOn : Option RealtimeData) ≠ none →
      ({ data := some { realtime := some rtSampleOn, hvac := some hvacSampleOn },
         lastRealtime := some rtSampleOn, lastHvac := some hvacSampleOn,
         guardUntil := none,
         guardExpected := none } : TelemetryState).lastRealtime ≠ none) ∧
    ((some hvacSampleOn : Option HvacStatus) ≠ none →
      ({ realtime := some rtSampleOn,
         hvac := some hvacSampleOn } : TelemetryData).hvac ≠ none) := by
  have h := (C3_theorem
    { data := none, lastRealtime := some rtSampleOn, lastHvac := some hvacSampleOn,
      guardUntil := none, guardExpected := none } 0 true
    FetchResult.recoverable FetchResult.recoverable).2
    { realtime := some rtSampleOn, hvac := some hvacSampleOn }
    { realtimeFailed := true, hvacFailed := true, hvacRequested := true }
    { data := some { realtime := some rtSampleOn, hvac := some hvacSampleOn },
      lastRealtime := some rtSampleOn, lastHvac := some hvacSampleOn,
      guardUntil := none, guardExpected := none } (by decide)
  exact ⟨fun hx => h.1.1 hx, fun hx => h.2 (by decide) (by decide)⟩

/-! ## Claim C8 — command dispatch error handling -/

/-- C8: a remote-control soft failure (vehicle accepted, cloud reports an
asynchronous failure) is treated as optimistic success — no rollback, no
raised error, and the command-pending flag is set with the command time
recorded; any other exception invokes the provided rollback, raises a
user-visible error carrying the underlying message, and leaves the
command-pending state untouched. -/
theorem C8_theorem (st : EntityCmdState) (softMsg errMsg : String) (now : ℚ) :
    (executeCommand st (CommandCallResult.remoteControlSoftFailure softMsg) true now =
      { st := { commandPending := true, commandedAt := some now },
        rolledBack := false, raisedError := none }) ∧
    (executeCommand st (CommandCallResult.otherError errMsg) true now =
      { st := st, rolledBack := true, raisedError := some errMsg }) :=
  ⟨rfl, rfl⟩

/-! ## Claim C9 — optimistic HVAC patch without a cached baseline -/

/-- C9: when the coordinator data holds no HVAC entry for the VIN,
`apply_optimistic_hvac` is a no-op — the whole coordinator state (data and
guard included) is unchanged — and consequently, when the guard was not
armed before the command, any subsequent fetched HVAC candidate (in
particular one contradicting the commanded state) is accepted rather than
discarded, again leaving the state unchanged. -/
theorem C9_theorem (st : TelemetryState) (now now2 : ℚ) (acOn : Option Bool)
    (targetTemp : Option ℚ) (resetSeats : Bool) (cand : HvacStatus)
    (hNoHvac : st.data.bind (fun d => d.hvac) = none) :
    applyOptimisticHvac st now acOn targetTemp resetSeats = st ∧
    (st.guardUntil = none →
      acceptHvacUpdate st now2 cand = (true, st)) := by
  constructor
  · rcases st with ⟨data, lastRt, lastHv, gU, gE⟩
    cases data with
    | none => rfl
    | some d =>
      rcases d with ⟨drt, dhv⟩
      cases dhv with
      | none => rfl
      | some cur => exact absurd hNoHvac (by simp)
  · intro hG
    unfold acceptHvacUpdate
    rw [hG]

/-- C9 witness: the theorem applied at a coordinator state with data present
but no HVAC entry and an unarmed guard: the optimistic patch leaves the
state unchanged and a contradicting candidate is accepted. -/
theorem C9_witness :
    (applyOptimisticHvac
      { data := some { realtime := some rtSampleOff, hvac := none },
        lastRealtime := some rtSampleOff, lastHvac := none,
        guardUntil := none, guardExpected := none } 0 (some true) (some 21) false =
      { data := some { realtime := some rtSampleOff, hvac := none },
        lastRealtime := some rtSampleOff, lastHvac := none,
        guardUntil := none, guardExpected := none }) ∧
    (acceptHvacUpdate
      { data := some { realtime := some rtSampleOff, hvac := none },
        lastRealtime := some rtSampleOff, lastHvac := none,
        guardUntil := none, guardExpected := none } 30
      { status := false, mainSettingTempNew := none, seatFields := [],
        steeringWheelHeatState := SteeringWheelHeat.off, payload := 7 } =
      (true,
        { data := some { realtime := some rtSampleOff, hvac := none },
          lastRealtime := some rtSampleOff, lastHvac := none,
          guardUntil := none, guardExpected := none })) := by
  have h := C9_theorem
    { data := some { realtime := some rtSampleOff, hvac := none },
      lastRealtime := some rtSampleOff, lastHvac := none,
      guardUntil := none, guardExpected := none } 0 30 (some true) (some 21) false
    { status := false, mainSettingTempNew := none, seatFields := [],
      steeringWheelHeatState := SteeringWheelHeat.off, payload := 7 } (by decide)
  exact ⟨h.1, h.2 rfl⟩

/-! ## Claim C10 — car-on switch reads an undefined coordinator attribute -/

/-- C10: reading the car-on switch state with no command pending, a cached
HVAC value reporting the A/C on and the realtime feed reporting the vehicle
off reaches the read of `coordinator.hvac_command_pending`; since every
dynamic attribute of the coordinator object is drawn from the names defined
by `BydDataUpdateCoordinator` and its base class, and no such name is
`hvac_command_pending`, the read raises `AttributeError`. -/
theorem C10_theorem (coordAttrs : List (String × Bool)) (h : HvacStatus)
    (realtime : Option RealtimeData) (lastState : Option Bool)
    (hAttrs : ∀ p ∈ coordAttrs, p.1 ∈ telemetryCoordinatorAttrNames)
    (hAc : h.is_ac_on = true) (hOff : entityIsVehicleOn realtime = false) :
    carOnIsOn coordAttrs false lastState (some h) realtime =
      .error "AttributeError: hvac_command_pending" ∧
    "hvac_command_pending" ∉ telemetryCoordinatorAttrNames := by
  have hNotMem : "hvac_command_pending" ∉ telemetryCoordinatorAttrNames := by decide
  constructor
  · have hNoAttr : lookupKey "hvac_command_pending" coordAttrs = none := by
      apply (lookupKey_eq_none _ _).mpr
      intro hmem
      obtain ⟨p, hp, hpk⟩ := List.mem_map.mp hmem
      exact hNotMem (hpk ▸ hAttrs p hp)
    simp [carOnIsOn, getattrBool, hAc, hOff, hNoAttr]
  · exact hNotMem

/-- C10 witness: the theorem applied to a coordinator whose only dynamic
boolean attribute is `_polling_enabled`, a cached HVAC value with the A/C on
and a realtime value reporting the vehicle off. -/
theorem C10_witness :
    carOnIsOn [("_polling_enabled", true)] false none (some hvacSampleOn)
      (some rtSampleOff) = .error "AttributeError: hvac_command_pending" ∧
    "hvac_command_pending" ∉ telemetryCoordinatorAttrNames :=
  C10_theorem [("_polling_enabled", true)] hvacSampleOn (some rtSampleOff) none
    (by decide) rfl rfl

/-! ## Claim C7 — material snapshot digest -/

/-- C7: the digest of a material snapshot is `none` exactly when the snapshot
is empty; it is stable under key reordering (snapshots equal as maps — a
permutation of entries with section contents equal as maps — yield equal
digests); two realtime objects differing only in their `timestamp` field
yield identical digests; two differing in `elec_percent` yield different
digests; and a source object whose whitelisted field is missing or `None`
yields a snapshot that omits that field entirely rather than including a
null placeholder. -/
theorem C7_theorem :
    (∀ m : MaterialSnapshot, snapshot_digest m = none ↔ m = []) ∧
    (∀ m₁ m₂ : MaterialSnapshot,
      (m₁.map fun kv => (kv.1, canonicalSect kv.2)).Perm
        (m₂.map fun kv => (kv.1, canonicalSect kv.2)) →
      (m₁.map Prod.fst).Nodup →
      snapshot_digest m₁ = snapshot_digest m₂) ∧
    (∀ (r : RealtimeSrc) (t : Option MVal) (hv : Option HvacSrc)
        (c : Option ChargingSrc) (e : Option EnergySrc),
      snapshot_digest (build_telemetry_material_snapshot
          (some { r with timestamp := t }) hv c e) =
        snapshot_digest (build_telemetry_material_snapshot (some r) hv c e)) ∧
    (∀ (r₁ r₂ : RealtimeSrc) (hv : Option HvacSrc) (c : Option ChargingSrc)
        (e : Option EnergySrc), r₁.elec_percent ≠ r₂.elec_percent →
      snapshot_digest (build_telemetry_material_snapshot (some r₁) hv c e) ≠
        snapshot_digest (build_telemetry_material_snapshot (some r₂) hv c e)) ∧
    (∀ r : RealtimeSrc, r.elec_percent = none →
      lookupKey "elec_percent" (extractOpt realtimeFieldPairs (some r)) = none ∧
      "elec_percent" ∉ (extractOpt realtimeFieldPairs (some r)).map Prod.fst) := by
  refine ⟨?_, ?_, ?_, ?_, ?_⟩
  · intro m
    by_cases hm : m = [] <;> simp [snapshot_digest, hm]
  · intro m₁ m₂ hperm hnd
    unfold snapshot_digest
    by_cases h1 : m₁ = []
    · have h2 : m₂ = [] := by
        have hlen := hperm.length_eq
        rw [h1] at hlen
        simp only [List.map_nil, List.length_nil, List.length_map] at hlen
        exact List.eq_nil_of_length_eq_zero hlen.symm
      rw [if_pos h1, if_pos h2]
    · have h2 : ¬(m₂ = []) := by
        intro hh
        apply h1
        have hlen := hperm.length_eq
        rw [hh] at hlen
        simp only [List.map_nil, List.length_nil, List.length_map] at hlen
        exact List.eq_nil_of_length_eq_zero hlen
      rw [if_neg h1, if_neg h2]
      unfold canonicalSnap
      exact congrArg some (insertionSort_keyLe_eq_of_perm hperm
        (by simpa [List.map_map, Function.comp] using hnd))
  · intro r t hv c e
    rfl
  · intro r₁ r₂ hv c e hne heq
    have e₁ := elecOfSnapshot_build r₁ hv c e
    have e₂ := elecOfSnapshot_build r₂ hv c e
    unfold snapshot_digest at heq
    by_cases hb1 : build_telemetry_material_snapshot (some r₁) hv c e = []
    · by_cases hb2 : build_telemetry_material_snapshot (some r₂) hv c e = []
      · rw [hb1] at e₁
        rw [hb2] at e₂
        exact hne (e₁.symm.trans e₂)
      · rw [if_pos hb1, if_neg hb2] at heq
        exact Option.noConfusion heq
    · by_cases hb2 : build_telemetry_material_snapshot (some r₂) hv c e = []
      · rw [if_neg hb1, if_pos hb2] at heq
        exact Option.noConfusion heq
      · rw [if_neg hb1, if_neg hb2] at heq
        injection heq with hc
        have ndSec : ∀ (r : RealtimeSrc) (sec : MaterialSection),
            lookupKey "realtime" (build_telemetry_material_snapshot (some r) hv c e) =
              some sec → (sec.map Prod.fst).Nodup := by
          intro r sec hsec
          rw [lookupKey_realtime_build] at hsec
          by_cases hx : extractOpt realtimeFieldPairs (some r) = []
          · rw [if_pos hx] at hsec
            exact Option.noConfusion hsec
          · rw [if_neg hx] at hsec
            injection hsec with hsec2
            rw [← hsec2]
            exact extractRealtime_keys_nodup r
        have i₁ := elecOfSnapshot_canonical
          (build_telemetry_material_snapshot (some r₁) hv c e)
          (build_keys_nodup (some r₁) hv c e) (ndSec r₁)
        have i₂ := elecOfSnapshot_canonical
          (build_telemetry_material_snapshot (some r₂) hv c e)
          (build_keys_nodup (some r₂) hv c e) (ndSec r₂)
        unfold canonicalSnap at hc
        apply hne
        calc r₁.elec_percent
            = elecOfSnapshot (build_telemetry_material_snapshot (some r₁) hv c e) :=
              e₁.symm
          _ = elecOfSnapshot (canonicalSnap
                (build_telemetry_material_snapshot (some r₁) hv c e)) := i₁.symm
          _ = elecOfSnapshot (canonicalSnap
                (build_telemetry_material_snapshot (some r₂) hv c e)) := by
              unfold canonicalSnap
              rw [hc]
          _ = elecOfSnapshot (build_telemetry_material_snapshot (some r₂) hv c e) := i₂
          _ = r₂.elec_percent := e₂
  · intro r hr
    have hl : lookupKey "elec_percent" (extractOpt realtimeFieldPairs (some r)) = none :=
      (lookupKey_elec_extract r).trans hr
    exact ⟨hl, (lookupKey_eq_none _ _).mp hl⟩

/-- C7 witness: the theorem applied at concrete inputs — the empty snapshot
has no digest; the two key orderings of the same two-section snapshot have
equal digests; adjusting only the timestamp of `rtSrcA` keeps the digest;
changing `elec_percent` from 50 to 51 changes it; and a realtime object with
`elec_percent` absent yields a section without that key. -/
theorem C7_witness :
    (snapshot_digest [] = none) ∧
    (snapshot_digest snapSampleA = snapshot_digest snapSampleB) ∧
    (snapshot_digest (build_telemetry_material_snapshot
        (some { rtSrcA with timestamp := some (MVal.int 2000) }) none none none) =
      snapshot_digest (build_telemetry_material_snapshot (some rtSrcA) none none none)) ∧
    (snapshot_digest (build_telemetry_material_snapshot (some rtSrcA) none none none) ≠
      snapshot_digest (build_telemetry_material_snapshot (some rtSrcB) none none none)) ∧
    (lookupKey "elec_percent" (extractOpt realtimeFieldPairs
        (some { rtSrcA with elec_percent := none })) = none) := by
  refine ⟨?_, ?_, ?_, ?_, ?_⟩
  · exact (C7_theorem.1 []).mpr rfl
  · have hsect : canonicalSect [("speed", MVal.int 0), ("elec_percent", MVal.int 50)] =
        canonicalSect [("elec_percent", MVal.int 50), ("speed", MVal.int 0)] :=
      insertionSort_keyLe_eq_of_perm (List.Perm.swap _ _ _) (by decide)
    have hperm : (List.map (fun kv => (kv.1, canonicalSect kv.2)) snapSampleA).Perm
        (List.map (fun kv => (kv.1, canonicalSect kv.2)) snapSampleB) := by
      show List.Perm
        [("realtime", canonicalSect [("elec_percent", MVal.int 50), ("speed", MVal.int 0)]),
         ("hvac", canonicalSect [("pm", MVal.int 7)])]
        [("hvac", canonicalSect [("pm", MVal.int 7)]),
         ("realtime", canonicalSect [("speed", MVal.int 0), ("elec_percent", MVal.int 50)])]
      rw [hsect]
      exact List.Perm.swap _ _ _
    exact C7_theorem.2.1 snapSampleA snapSampleB hperm (by decide)
  · exact C7_theorem.2.2.1 rtSrcA (some (MVal.int 2000)) none none none
  · exact C7_theorem.2.2.2.1 rtSrcA rtSrcB none none none (by decide)
  · exact (C7_theorem.2.2.2.2 { rtSrcA with elec_percent := none } rfl).1
